import Mathlib

/-!
# Verification of the pysph two-step integrator module

Shallow embedding of `pysph/sph/integrator.py`. Field arrays are modelled as
functions `Nat → ℚ` from particle index to value (the source stores dense
per-particle double arrays; we use exact rationals). Each stepper phase reads
and writes only the entry at the current particle index, so phases are
modelled as pointwise state transformers, with sequential `let` bindings
mirroring the order of the assignment statements in the source so that reads
of just-updated values are captured exactly.
-/

/-- State for `EulerStep`: the fields named in `EulerStep.corrector`
(`d_u, d_v, d_w, d_au, d_av, d_aw, d_x, d_y, d_z, d_rho, d_arho`). -/
@[ext]
structure EulerState where
  u : Nat → ℚ
  v : Nat → ℚ
  w : Nat → ℚ
  au : Nat → ℚ
  av : Nat → ℚ
  aw : Nat → ℚ
  x : Nat → ℚ
  y : Nat → ℚ
  z : Nat → ℚ
  rho : Nat → ℚ
  arho : Nat → ℚ

/-- `EulerStep.corrector`: velocity is incremented by `dt` times acceleration,
then position is incremented by `dt` times the just-updated velocity, then
density by `dt` times the density rate. -/
def EulerStep.corrector (s : EulerState) (dt : ℚ) : EulerState :=
  let u := fun i => s.u i + dt * s.au i
  let v := fun i => s.v i + dt * s.av i
  let w := fun i => s.w i + dt * s.aw i
  let x := fun i => s.x i + dt * u i
  let y := fun i => s.y i + dt * v i
  let z := fun i => s.z i + dt * w i
  let rho := fun i => s.rho i + dt * s.arho i
  { s with u := u, v := v, w := w, x := x, y := y, z := z, rho := rho }

/-- State for `WCSPHStep`: live fields, their `*0` snapshots, and the rate
fields named in the phase signatures (`d_au ... d_az, d_arho`). -/
@[ext]
structure WCSPHState where
  x : Nat → ℚ
  y : Nat → ℚ
  z : Nat → ℚ
  u : Nat → ℚ
  v : Nat → ℚ
  w : Nat → ℚ
  rho : Nat → ℚ
  x0 : Nat → ℚ
  y0 : Nat → ℚ
  z0 : Nat → ℚ
  u0 : Nat → ℚ
  v0 : Nat → ℚ
  w0 : Nat → ℚ
  rho0 : Nat → ℚ
  au : Nat → ℚ
  av : Nat → ℚ
  aw : Nat → ℚ
  ax : Nat → ℚ
  ay : Nat → ℚ
  az : Nat → ℚ
  arho : Nat → ℚ

/-- `WCSPHStep.initialize` (spelled `initialise` here): snapshot the live
`x, y, z, u, v, w, rho` into the `*0` fields. -/
def WCSPHStep.initialise (s : WCSPHState) : WCSPHState :=
  { s with
    x0 := s.x, y0 := s.y, z0 := s.z,
    u0 := s.u, v0 := s.v, w0 := s.w,
    rho0 := s.rho }

/-- `WCSPHStep.predictor`: with `dtb2 = 0.5*dt`, set every live field to its
`*0` snapshot plus `dtb2` times the corresponding rate array. Note the
position update reads the separate `d_ax, d_ay, d_az` rate arrays, not the
velocity fields. -/
def WCSPHStep.predictor (s : WCSPHState) (dt : ℚ) : WCSPHState :=
  let dtb2 := 0.5 * dt
  { s with
    u := fun i => s.u0 i + dtb2 * s.au i,
    v := fun i => s.v0 i + dtb2 * s.av i,
    w := fun i => s.w0 i + dtb2 * s.aw i,
    x := fun i => s.x0 i + dtb2 * s.ax i,
    y := fun i => s.y0 i + dtb2 * s.ay i,
    z := fun i => s.z0 i + dtb2 * s.az i,
    rho := fun i => s.rho0 i + dtb2 * s.arho i }

/-- `WCSPHStep.corrector`: identical to the predictor but with the full `dt`
in place of `dtb2`. -/
def WCSPHStep.corrector (s : WCSPHState) (dt : ℚ) : WCSPHState :=
  { s with
    u := fun i => s.u0 i + dt * s.au i,
    v := fun i => s.v0 i + dt * s.av i,
    w := fun i => s.w0 i + dt * s.aw i,
    x := fun i => s.x0 i + dt * s.ax i,
    y := fun i => s.y0 i + dt * s.ay i,
    z := fun i => s.z0 i + dt * s.az i,
    rho := fun i => s.rho0 i + dt * s.arho i }

/-- State for `TransportVelocityStep`: the fields named in its phase
signatures (`d_u, d_v, d_au, d_av, d_uhat, d_auhat, d_vhat, d_avhat,
d_x, d_y, d_vmag`). -/
@[ext]
structure TVFState where
  u : Nat → ℚ
  v : Nat → ℚ
  au : Nat → ℚ
  av : Nat → ℚ
  uhat : Nat → ℚ
  auhat : Nat → ℚ
  vhat : Nat → ℚ
  avhat : Nat → ℚ
  x : Nat → ℚ
  y : Nat → ℚ
  vmag : Nat → ℚ

/-- `TransportVelocityStep.predictor`: half-step the velocity in place, set
the transport velocity from the just-updated velocity plus a half-step of the
transport acceleration, then advance position by the full `dt` times the
transport velocity. -/
def TransportVelocityStep.predictor (s : TVFState) (dt : ℚ) : TVFState :=
  let dtb2 := 0.5 * dt
  let u := fun i => s.u i + dtb2 * s.au i
  let v := fun i => s.v i + dtb2 * s.av i
  let uhat := fun i => u i + dtb2 * s.auhat i
  let vhat := fun i => v i + dtb2 * s.avhat i
  let x := fun i => s.x i + dt * uhat i
  let y := fun i => s.y i + dt * vhat i
  { s with u := u, v := v, uhat := uhat, vhat := vhat, x := x, y := y }

/-- `TransportVelocityStep.corrector`: half-step the velocity in place and
store the squared speed magnitude. -/
def TransportVelocityStep.corrector (s : TVFState) (dt : ℚ) : TVFState :=
  let dtb2 := 0.5 * dt
  let u := fun i => s.u i + dtb2 * s.au i
  let v := fun i => s.v i + dtb2 * s.av i
  let vmag := fun i => u i * u i + v i * v i
  { s with u := u, v := v, vmag := vmag }

/-- State for `AdamiVerletStep`: the fields named in its phase signatures
(`d_u, d_v, d_au, d_av, d_x, d_y, d_rho, d_arho, d_vmag`). -/
@[ext]
structure AVState where
  u : Nat → ℚ
  v : Nat → ℚ
  au : Nat → ℚ
  av : Nat → ℚ
  x : Nat → ℚ
  y : Nat → ℚ
  rho : Nat → ℚ
  arho : Nat → ℚ
  vmag : Nat → ℚ

/-- `AdamiVerletStep.predictor`: half-step velocity in place, then half-step
position using the just-updated velocity. No snapshot fields exist. -/
def AdamiVerletStep.predictor (s : AVState) (dt : ℚ) : AVState :=
  let dtb2 := 0.5 * dt
  let u := fun i => s.u i + dtb2 * s.au i
  let v := fun i => s.v i + dtb2 * s.av i
  let x := fun i => s.x i + dtb2 * u i
  let y := fun i => s.y i + dtb2 * v i
  { s with u := u, v := v, x := x, y := y }

/-- `AdamiVerletStep.corrector`: same half-step of velocity and position in
place, then the full-step density update and the squared speed magnitude. -/
def AdamiVerletStep.corrector (s : AVState) (dt : ℚ) : AVState :=
  let dtb2 := 0.5 * dt
  let u := fun i => s.u i + dtb2 * s.au i
  let v := fun i => s.v i + dtb2 * s.av i
  let x := fun i => s.x i + dtb2 * u i
  let y := fun i => s.y i + dtb2 * v i
  let rho := fun i => s.rho i + dt * s.arho i
  let vmag := fun i => u i * u i + v i * v i
  { s with u := u, v := v, x := x, y := y, rho := rho, vmag := vmag }

/-- C4: the explicit-Euler corrector adds `dt` times the acceleration to each
velocity component, advances each position component by `dt` times the
just-updated velocity component, and advances density by `dt` times the
density rate, for every particle index and arbitrary field values. -/
theorem euler_corrector_formulas (s : EulerState) (dt : ℚ) (i : Nat) :
    (EulerStep.corrector s dt).u i = s.u i + dt * s.au i ∧
    (EulerStep.corrector s dt).v i = s.v i + dt * s.av i ∧
    (EulerStep.corrector s dt).w i = s.w i + dt * s.aw i ∧
    (EulerStep.corrector s dt).x i = s.x i + dt * (EulerStep.corrector s dt).u i ∧
    (EulerStep.corrector s dt).y i = s.y i + dt * (EulerStep.corrector s dt).v i ∧
    (EulerStep.corrector s dt).z i = s.z i + dt * (EulerStep.corrector s dt).w i ∧
    (EulerStep.corrector s dt).rho i = s.rho i + dt * s.arho i :=
  ⟨rfl, rfl, rfl, rfl, rfl, rfl, rfl⟩

/-- C5: for the weakly-compressible stepper, `initialise` followed by
`predictor` with `dt = 0` leaves every live field equal to its `*0` snapshot
value (which is the pre-call live value). -/
theorem wcsph_zero_step_idempotent (s : WCSPHState) (i : Nat) :
    (WCSPHStep.predictor (WCSPHStep.initialise s) 0).x i
      = (WCSPHStep.predictor (WCSPHStep.initialise s) 0).x0 i ∧
    (WCSPHStep.predictor (WCSPHStep.initialise s) 0).y i
      = (WCSPHStep.predictor (WCSPHStep.initialise s) 0).y0 i ∧
    (WCSPHStep.predictor (WCSPHStep.initialise s) 0).z i
      = (WCSPHStep.predictor (WCSPHStep.initialise s) 0).z0 i ∧
    (WCSPHStep.predictor (WCSPHStep.initialise s) 0).u i
      = (WCSPHStep.predictor (WCSPHStep.initialise s) 0).u0 i ∧
    (WCSPHStep.predictor (WCSPHStep.initialise s) 0).v i
      = (WCSPHStep.predictor (WCSPHStep.initialise s) 0).v0 i ∧
    (WCSPHStep.predictor (WCSPHStep.initialise s) 0).w i
      = (WCSPHStep.predictor (WCSPHStep.initialise s) 0).w0 i ∧
    (WCSPHStep.predictor (WCSPHStep.initialise s) 0).rho i
      = (WCSPHStep.predictor (WCSPHStep.initialise s) 0).rho0 i := by
  simp [WCSPHStep.predictor, WCSPHStep.initialise]

/-- State for `SolidMechStep`: the WCSPH fields plus specific energy `e` and
the six deviatoric stress components, with their `*0` snapshots and rates. -/
@[ext]
structure SolidMechState where
  x : Nat → ℚ
  y : Nat → ℚ
  z : Nat → ℚ
  u : Nat → ℚ
  v : Nat → ℚ
  w : Nat → ℚ
  rho : Nat → ℚ
  e : Nat → ℚ
  s00 : Nat → ℚ
  s01 : Nat → ℚ
  s02 : Nat → ℚ
  s11 : Nat → ℚ
  s12 : Nat → ℚ
  s22 : Nat → ℚ
  x0 : Nat → ℚ
  y0 : Nat → ℚ
  z0 : Nat → ℚ
  u0 : Nat → ℚ
  v0 : Nat → ℚ
  w0 : Nat → ℚ
  rho0 : Nat → ℚ
  e0 : Nat → ℚ
  s000 : Nat → ℚ
  s010 : Nat → ℚ
  s020 : Nat → ℚ
  s110 : Nat → ℚ
  s120 : Nat → ℚ
  s220 : Nat → ℚ
  au : Nat → ℚ
  av : Nat → ℚ
  aw : Nat → ℚ
  ax : Nat → ℚ
  ay : Nat → ℚ
  az : Nat → ℚ
  arho : Nat → ℚ
  ae : Nat → ℚ
  as00 : Nat → ℚ
  as01 : Nat → ℚ
  as02 : Nat → ℚ
  as11 : Nat → ℚ
  as12 : Nat → ℚ
  as22 : Nat → ℚ

/-- `SolidMechStep.initialize` (spelled `initialise` here): snapshot position,
velocity, density, specific energy and the six deviatoric stress components
into the `*0` fields. -/
def SolidMechStep.initialise (s : SolidMechState) : SolidMechState :=
  { s with
    x0 := s.x, y0 := s.y, z0 := s.z,
    u0 := s.u, v0 := s.v, w0 := s.w,
    rho0 := s.rho, e0 := s.e,
    s000 := s.s00, s010 := s.s01, s020 := s.s02,
    s110 := s.s11, s120 := s.s12, s220 := s.s22 }

/-- `SolidMechStep.predictor`: with `dtb2 = 0.5*dt`, set every live field to
its `*0` snapshot plus `dtb2` times the corresponding rate array. -/
def SolidMechStep.predictor (s : SolidMechState) (dt : ℚ) : SolidMechState :=
  let dtb2 := 0.5 * dt
  { s with
    u := fun i => s.u0 i + dtb2 * s.au i,
    v := fun i => s.v0 i + dtb2 * s.av i,
    w := fun i => s.w0 i + dtb2 * s.aw i,
    x := fun i => s.x0 i + dtb2 * s.ax i,
    y := fun i => s.y0 i + dtb2 * s.ay i,
    z := fun i => s.z0 i + dtb2 * s.az i,
    rho := fun i => s.rho0 i + dtb2 * s.arho i,
    e := fun i => s.e0 i + dtb2 * s.ae i,
    s00 := fun i => s.s000 i + dtb2 * s.as00 i,
    s01 := fun i => s.s010 i + dtb2 * s.as01 i,
    s02 := fun i => s.s020 i + dtb2 * s.as02 i,
    s11 := fun i => s.s110 i + dtb2 * s.as11 i,
    s12 := fun i => s.s120 i + dtb2 * s.as12 i,
    s22 := fun i => s.s220 i + dtb2 * s.as22 i }

/-- `SolidMechStep.corrector`: identical to the predictor but with the full
`dt` in place of `dtb2`. -/
def SolidMechStep.corrector (s : SolidMechState) (dt : ℚ) : SolidMechState :=
  { s with
    u := fun i => s.u0 i + dt * s.au i,
    v := fun i => s.v0 i + dt * s.av i,
    w := fun i => s.w0 i + dt * s.aw i,
    x := fun i => s.x0 i + dt * s.ax i,
    y := fun i => s.y0 i + dt * s.ay i,
    z := fun i => s.z0 i + dt * s.az i,
    rho := fun i => s.rho0 i + dt * s.arho i,
    e := fun i => s.e0 i + dt * s.ae i,
    s00 := fun i => s.s000 i + dt * s.as00 i,
    s01 := fun i => s.s010 i + dt * s.as01 i,
    s02 := fun i => s.s020 i + dt * s.as02 i,
    s11 := fun i => s.s110 i + dt * s.as11 i,
    s12 := fun i => s.s120 i + dt * s.as12 i,
    s22 := fun i => s.s220 i + dt * s.as22 i }

/-- Concrete weakly-compressible state refuting C1: every field is the zero
function except the position rate array `ax`, which is constantly 1. -/
def wcsphC1State : WCSPHState where
  x := fun _ => 0
  y := fun _ => 0
  z := fun _ => 0
  u := fun _ => 0
  v := fun _ => 0
  w := fun _ => 0
  rho := fun _ => 0
  x0 := fun _ => 0
  y0 := fun _ => 0
  z0 := fun _ => 0
  u0 := fun _ => 0
  v0 := fun _ => 0
  w0 := fun _ => 0
  rho0 := fun _ => 0
  au := fun _ => 0
  av := fun _ => 0
  aw := fun _ => 0
  ax := fun _ => 1
  ay := fun _ => 0
  az := fun _ => 0
  arho := fun _ => 0

/-- C1 counterexample: at `dt = 2` the predictor puts particle 0 at
`x0 + 0.5*dt*ax = 1`, while the claimed formula `x0 + 0.5*dt*u` (with `u` the
just-updated velocity, here 0) gives 0 — so the position update reads the
separate `ax` rate array, not the velocity. -/
theorem wcsph_predictor_position_uses_ax_cex :
    (WCSPHStep.predictor wcsphC1State 2).x 0 = 1 ∧
    wcsphC1State.x0 0 + 0.5 * 2 * ((WCSPHStep.predictor wcsphC1State 2).u 0) = 0 ∧
    (WCSPHStep.predictor wcsphC1State 2).x 0 ≠
      wcsphC1State.x0 0 + 0.5 * 2 * ((WCSPHStep.predictor wcsphC1State 2).u 0) := by
  refine ⟨?_, ?_, ?_⟩ <;> norm_num [WCSPHStep.predictor, wcsphC1State]

/-- C1 amended: the weakly-compressible predictor sets each velocity
component to its `*0` snapshot plus `0.5*dt` times the corresponding
acceleration, sets density to its snapshot plus `0.5*dt` times the density
rate, and sets each position component to its snapshot plus `0.5*dt` times
the corresponding entry of the separate position-rate arrays
`ax, ay, az` — not the just-updated velocity. -/
theorem wcsph_predictor_formulas (s : WCSPHState) (dt : ℚ) (i : Nat) :
    (WCSPHStep.predictor s dt).u i = s.u0 i + 0.5 * dt * s.au i ∧
    (WCSPHStep.predictor s dt).v i = s.v0 i + 0.5 * dt * s.av i ∧
    (WCSPHStep.predictor s dt).w i = s.w0 i + 0.5 * dt * s.aw i ∧
    (WCSPHStep.predictor s dt).x i = s.x0 i + 0.5 * dt * s.ax i ∧
    (WCSPHStep.predictor s dt).y i = s.y0 i + 0.5 * dt * s.ay i ∧
    (WCSPHStep.predictor s dt).z i = s.z0 i + 0.5 * dt * s.az i ∧
    (WCSPHStep.predictor s dt).rho i = s.rho0 i + 0.5 * dt * s.arho i :=
  ⟨rfl, rfl, rfl, rfl, rfl, rfl, rfl⟩

/-- Concrete weakly-compressible state refuting C2: every field is the zero
function except the acceleration `au`, which is constantly 1. -/
def wcsphC2State : WCSPHState where
  x := fun _ => 0
  y := fun _ => 0
  z := fun _ => 0
  u := fun _ => 0
  v := fun _ => 0
  w := fun _ => 0
  rho := fun _ => 0
  x0 := fun _ => 0
  y0 := fun _ => 0
  z0 := fun _ => 0
  u0 := fun _ => 0
  v0 := fun _ => 0
  w0 := fun _ => 0
  rho0 := fun _ => 0
  au := fun _ => 1
  av := fun _ => 0
  aw := fun _ => 0
  ax := fun _ => 0
  ay := fun _ => 0
  az := fun _ => 0
  arho := fun _ => 0

/-- C2 counterexample: with `u0 = 0`, `au = 1` and `dt = 1`, applying the
weakly-compressible predictor twice with step `dt/2` gives `u = 1/4` (the
second application overwrites from the unchanged snapshot), while one
corrector with step `dt` gives `u = 1`; the two results differ. -/
theorem wcsph_predictor_twice_ne_corrector_cex :
    (WCSPHStep.predictor (WCSPHStep.predictor wcsphC2State (1 / 2)) (1 / 2)).u 0 = 1 / 4 ∧
    (WCSPHStep.corrector wcsphC2State 1).u 0 = 1 ∧
    (WCSPHStep.predictor (WCSPHStep.predictor wcsphC2State (1 / 2)) (1 / 2)).u 0 ≠
      (WCSPHStep.corrector wcsphC2State 1).u 0 := by
  refine ⟨?_, ?_, ?_⟩ <;> norm_num [WCSPHStep.predictor, WCSPHStep.corrector, wcsphC2State]

set_option maxHeartbeats 1600000 in
/-- C2 amended: for both the weakly-compressible and solid-mechanics
steppers, the predictor overwrites every live field from the unchanged `*0`
snapshot, so applying predictor with step `dt/2` twice equals applying
corrector once with step `dt/4` — not `dt`. The half-step/full-step formulas
are consistent in the sense `corrector(dt) = predictor(2*dt)` on every
field. -/
theorem predictor_corrector_consistency :
    (∀ (s : WCSPHState) (dt : ℚ),
      WCSPHStep.predictor (WCSPHStep.predictor s (dt / 2)) (dt / 2)
        = WCSPHStep.corrector s (dt / 4) ∧
      WCSPHStep.corrector s dt = WCSPHStep.predictor s (2 * dt)) ∧
    (∀ (s : SolidMechState) (dt : ℚ),
      SolidMechStep.predictor (SolidMechStep.predictor s (dt / 2)) (dt / 2)
        = SolidMechStep.corrector s (dt / 4) ∧
      SolidMechStep.corrector s dt = SolidMechStep.predictor s (2 * dt)) := by
  constructor
  · intro s dt
    constructor
    · ext i <;> simp only [WCSPHStep.predictor, WCSPHStep.corrector] <;> ring
    · ext i <;> simp only [WCSPHStep.predictor, WCSPHStep.corrector] <;> ring
  · intro s dt
    constructor
    · ext i <;> simp only [SolidMechStep.predictor, SolidMechStep.corrector] <;> ring
    · ext i <;> simp only [SolidMechStep.predictor, SolidMechStep.corrector] <;> ring

/-- C10: the weakly-compressible corrector overwrites every live field from
the `*0` snapshot and the rate fields, so two states that agree on the
snapshot and rate fields — but differ arbitrarily in the live fields —
produce identical live fields after the corrector. -/
theorem wcsph_corrector_reads_only_snapshot_and_rates
    (s₁ s₂ : WCSPHState) (dt : ℚ)
    (hx0 : s₁.x0 = s₂.x0) (hy0 : s₁.y0 = s₂.y0) (hz0 : s₁.z0 = s₂.z0)
    (hu0 : s₁.u0 = s₂.u0) (hv0 : s₁.v0 = s₂.v0) (hw0 : s₁.w0 = s₂.w0)
    (hrho0 : s₁.rho0 = s₂.rho0)
    (hau : s₁.au = s₂.au) (hav : s₁.av = s₂.av) (haw : s₁.aw = s₂.aw)
    (hax : s₁.ax = s₂.ax) (hay : s₁.ay = s₂.ay) (haz : s₁.az = s₂.az)
    (harho : s₁.arho = s₂.arho) :
    (WCSPHStep.corrector s₁ dt).x = (WCSPHStep.corrector s₂ dt).x ∧
    (WCSPHStep.corrector s₁ dt).y = (WCSPHStep.corrector s₂ dt).y ∧
    (WCSPHStep.corrector s₁ dt).z = (WCSPHStep.corrector s₂ dt).z ∧
    (WCSPHStep.corrector s₁ dt).u = (WCSPHStep.corrector s₂ dt).u ∧
    (WCSPHStep.corrector s₁ dt).v = (WCSPHStep.corrector s₂ dt).v ∧
    (WCSPHStep.corrector s₁ dt).w = (WCSPHStep.corrector s₂ dt).w ∧
    (WCSPHStep.corrector s₁ dt).rho = (WCSPHStep.corrector s₂ dt).rho := by
  refine ⟨?_, ?_, ?_, ?_, ?_, ?_, ?_⟩ <;>
    simp only [WCSPHStep.corrector] <;>
    simp only [hx0, hy0, hz0, hu0, hv0, hw0, hrho0, hau, hav, haw, hax, hay, haz, harho]

/-- A pair of concrete weakly-compressible states for the C10 witness: they
share all snapshot and rate fields but have different live fields. -/
def wcsphC10State₁ : WCSPHState where
  x := fun _ => 5
  y := fun _ => 5
  z := fun _ => 5
  u := fun _ => 5
  v := fun _ => 5
  w := fun _ => 5
  rho := fun _ => 5
  x0 := fun _ => 1
  y0 := fun _ => 1
  z0 := fun _ => 1
  u0 := fun _ => 2
  v0 := fun _ => 2
  w0 := fun _ => 2
  rho0 := fun _ => 3
  au := fun _ => 4
  av := fun _ => 4
  aw := fun _ => 4
  ax := fun _ => 4
  ay := fun _ => 4
  az := fun _ => 4
  arho := fun _ => 4

/-- Same snapshot and rate fields as `wcsphC10State₁`, different live
fields. -/
def wcsphC10State₂ : WCSPHState where
  x := fun _ => 7
  y := fun _ => 7
  z := fun _ => 7
  u := fun _ => 7
  v := fun _ => 7
  w := fun _ => 7
  rho := fun _ => 7
  x0 := fun _ => 1
  y0 := fun _ => 1
  z0 := fun _ => 1
  u0 := fun _ => 2
  v0 := fun _ => 2
  w0 := fun _ => 2
  rho0 := fun _ => 3
  au := fun _ => 4
  av := fun _ => 4
  aw := fun _ => 4
  ax := fun _ => 4
  ay := fun _ => 4
  az := fun _ => 4
  arho := fun _ => 4

/-- C10 witness: the two concrete states above disagree on the live fields
yet yield identical live fields after the corrector with `dt = 1`. -/
theorem wcsph_corrector_reads_only_snapshot_and_rates_witness :
    wcsphC10State₁.x0 = wcsphC10State₂.x0 ∧
    wcsphC10State₁.x 0 ≠ wcsphC10State₂.x 0 ∧
    (WCSPHStep.corrector wcsphC10State₁ 1).x = (WCSPHStep.corrector wcsphC10State₂ 1).x ∧
    (WCSPHStep.corrector wcsphC10State₁ 1).u = (WCSPHStep.corrector wcsphC10State₂ 1).u ∧
    (WCSPHStep.corrector wcsphC10State₁ 1).rho = (WCSPHStep.corrector wcsphC10State₂ 1).rho := by
  have h := wcsph_corrector_reads_only_snapshot_and_rates wcsphC10State₁ wcsphC10State₂ 1
    rfl rfl rfl rfl rfl rfl rfl rfl rfl rfl rfl rfl rfl rfl
  exact ⟨rfl, by norm_num [wcsphC10State₁, wcsphC10State₂], h.1, h.2.2.2.1, h.2.2.2.2.2.2⟩

/-- Concrete transport-velocity state for the C7 scenario: one particle with
`u = v = 0`, `au = 2`, `av = 0`, transport accelerations 0, position 0. -/
def tvfC7State : TVFState where
  u := fun _ => 0
  v := fun _ => 0
  au := fun _ => 2
  av := fun _ => 0
  uhat := fun _ => 0
  auhat := fun _ => 0
  vhat := fun _ => 0
  avhat := fun _ => 0
  x := fun _ => 0
  y := fun _ => 0
  vmag := fun _ => 0

/-- C7: the transport-velocity predictor half-steps the velocity, sets the
transport velocity to the just-updated velocity plus a half-step of the
transport acceleration, and advances position by `dt` times the transport
velocity (not the ordinary velocity). With `u = v = 0`, `au = 2`, `av = 0`,
transport accelerations 0 and `dt = 1/10`, the predictor yields `u = 1/10`,
`uhat = 1/10`, and the position advances by `1/100`. -/
theorem tvf_predictor_formulas :
    (∀ (s : TVFState) (dt : ℚ) (i : Nat),
      (TransportVelocityStep.predictor s dt).u i = s.u i + 0.5 * dt * s.au i ∧
      (TransportVelocityStep.predictor s dt).v i = s.v i + 0.5 * dt * s.av i ∧
      (TransportVelocityStep.predictor s dt).uhat i
        = (TransportVelocityStep.predictor s dt).u i + 0.5 * dt * s.auhat i ∧
      (TransportVelocityStep.predictor s dt).vhat i
        = (TransportVelocityStep.predictor s dt).v i + 0.5 * dt * s.avhat i ∧
      (TransportVelocityStep.predictor s dt).x i
        = s.x i + dt * (TransportVelocityStep.predictor s dt).uhat i ∧
      (TransportVelocityStep.predictor s dt).y i
        = s.y i + dt * (TransportVelocityStep.predictor s dt).vhat i) ∧
    (TransportVelocityStep.predictor tvfC7State (1 / 10)).u 0 = 1 / 10 ∧
    (TransportVelocityStep.predictor tvfC7State (1 / 10)).uhat 0 = 1 / 10 ∧
    (TransportVelocityStep.predictor tvfC7State (1 / 10)).x 0 - tvfC7State.x 0 = 1 / 100 := by
  refine ⟨fun s dt i => ⟨rfl, rfl, rfl, rfl, rfl, rfl⟩, ?_, ?_, ?_⟩ <;>
    norm_num [TransportVelocityStep.predictor, tvfC7State]

/-- C8: both Adami-Verlet phases apply the half-step increment directly onto
the live fields — velocity gains `0.5*dt` times the acceleration and position
gains `0.5*dt` times the just-updated velocity — with no snapshot fields at
all; the corrector additionally advances density by the full `dt` times the
density rate and stores the squared speed magnitude `u*u + v*v`. Composing
predictor and corrector therefore accumulates both half-steps. -/
theorem adami_verlet_formulas (s : AVState) (dt : ℚ) (i : Nat) :
    ((AdamiVerletStep.predictor s dt).u i = s.u i + 0.5 * dt * s.au i ∧
     (AdamiVerletStep.predictor s dt).v i = s.v i + 0.5 * dt * s.av i ∧
     (AdamiVerletStep.predictor s dt).x i
       = s.x i + 0.5 * dt * (AdamiVerletStep.predictor s dt).u i ∧
     (AdamiVerletStep.predictor s dt).y i
       = s.y i + 0.5 * dt * (AdamiVerletStep.predictor s dt).v i ∧
     (AdamiVerletStep.predictor s dt).rho i = s.rho i) ∧
    ((AdamiVerletStep.corrector s dt).u i = s.u i + 0.5 * dt * s.au i ∧
     (AdamiVerletStep.corrector s dt).v i = s.v i + 0.5 * dt * s.av i ∧
     (AdamiVerletStep.corrector s dt).x i
       = s.x i + 0.5 * dt * (AdamiVerletStep.corrector s dt).u i ∧
     (AdamiVerletStep.corrector s dt).y i
       = s.y i + 0.5 * dt * (AdamiVerletStep.corrector s dt).v i ∧
     (AdamiVerletStep.corrector s dt).rho i = s.rho i + dt * s.arho i ∧
     (AdamiVerletStep.corrector s dt).vmag i
       = (AdamiVerletStep.corrector s dt).u i * (AdamiVerletStep.corrector s dt).u i
         + (AdamiVerletStep.corrector s dt).v i * (AdamiVerletStep.corrector s dt).v i) ∧
    (AdamiVerletStep.corrector (AdamiVerletStep.predictor s dt) dt).u i
      = s.u i + dt * s.au i := by
  refine ⟨⟨rfl, rfl, rfl, rfl, rfl⟩, ⟨rfl, rfl, rfl, rfl, rfl, rfl⟩, ?_⟩
  simp only [AdamiVerletStep.predictor, AdamiVerletStep.corrector]
  ring

/-- Modelled from the spec: the minimum-value query of a particle array's
carray (`h.update_min_max()` followed by `h.minimum` in
`Integrator.compute_time_step`; the carray class lives in `pysph.base.carray`
which is not part of this module). Per the spec, a group with no particles
contributes nothing to the scan, so the empty list yields `none`. -/
def listMin : List ℚ → Option ℚ
  | [] => none
  | a :: l => some (l.foldl min a)

/-- `Integrator.compute_time_step`: if the externally supplied stability rate
`dt_cfl` is not positive, return the requested `dt` unchanged; otherwise scan
every group's smoothing-length field, lowering `hmin` from the sentinel 1
whenever a group's minimum is below it, and return `cfl * hmin / dt_cfl`.
The groups are passed as the list of per-group smoothing-length fields. -/
def compute_time_step (cfl dt_cfl : ℚ) (particle_arrays : List (List ℚ)) (dt : ℚ) : ℚ :=
  if dt_cfl ≤ 0 then dt
  else
    let hmin := particle_arrays.foldl
      (fun hmin h =>
        match listMin h with
        | none => hmin
        | some m => if m < hmin then m else hmin) 1
    cfl * hmin / dt_cfl

/-- The scan body of `compute_time_step`, named for the lemmas below. -/
def hminScan (particle_arrays : List (List ℚ)) : ℚ :=
  particle_arrays.foldl
    (fun hmin h =>
      match listMin h with
      | none => hmin
      | some m => if m < hmin then m else hmin) 1

/-- Folding `min` starting from `min b a` pulls the `b` out front. -/
theorem foldl_min_init (l : List ℚ) : ∀ a b : ℚ,
    l.foldl min (min b a) = min b (l.foldl min a) := by
  induction l with
  | nil => intro a b; rfl
  | cons c l ih =>
    intro a b
    simp only [List.foldl_cons]
    rw [min_assoc, ih]

/-- The source's lowering step `if m < hmin then m else hmin` is `min`. -/
theorem if_lt_eq_min (m hmin : ℚ) : (if m < hmin then m else hmin) = min hmin m := by
  rcases lt_or_le m hmin with h | h
  · rw [if_pos h, min_eq_right h.le]
  · rw [if_neg (not_lt.mpr h), min_eq_left h]

/-- One step of the scan equals folding `min` over the group's elements. -/
theorem scan_step_eq_foldl_min (g : List ℚ) (hmin : ℚ) :
    (match listMin g with
      | none => hmin
      | some m => if m < hmin then m else hmin) = g.foldl min hmin := by
  cases g with
  | nil => rfl
  | cons a l =>
    simp only [listMin, List.foldl_cons]
    rw [if_lt_eq_min, foldl_min_init]

/-- The whole scan equals folding `min` over the flattened list of every
group's smoothing lengths, starting from the sentinel 1. -/
theorem hminScan_eq_foldl_flatten (groups : List (List ℚ)) :
    hminScan groups = groups.flatten.foldl min 1 := by
  suffices h : ∀ (gs : List (List ℚ)) (a : ℚ),
      gs.foldl (fun hmin h =>
        match listMin h with
        | none => hmin
        | some m => if m < hmin then m else hmin) a = gs.flatten.foldl min a by
    exact h groups 1
  intro gs
  induction gs with
  | nil => intro a; rfl
  | cons g rest ih =>
    intro a
    simp only [List.foldl_cons, List.flatten_cons, List.foldl_append]
    rw [scan_step_eq_foldl_min, ih]

/-- C3: when the stability rate is positive, `compute_time_step` returns
`cfl * hmin / dt_cfl` where `hmin` is the fold of `min` over the flattened
smoothing-length fields starting at the sentinel 1 — so `hmin` starts at 1,
is lowered by each group's minimum, and a group with no particles (an empty
list, which flattens away) contributes nothing. -/
theorem compute_time_step_pos (cfl dt_cfl dt : ℚ) (groups : List (List ℚ))
    (h : 0 < dt_cfl) :
    compute_time_step cfl dt_cfl groups dt = cfl * (groups.flatten.foldl min 1) / dt_cfl := by
  rw [compute_time_step, if_neg (not_le.mpr h)]
  rw [show (groups.foldl (fun hmin h =>
      match listMin h with
      | none => hmin
      | some m => if m < hmin then m else hmin) 1) = hminScan groups from rfl]
  rw [hminScan_eq_foldl_flatten]

/-- C3 witness: with `cfl = 1/2`, `dt_cfl = 1`, groups `[[1/2, 3], []]` and a
requested step of 9, the estimator returns `1/4`, matching the formula. -/
theorem compute_time_step_pos_witness :
    (0 : ℚ) < 1 ∧
    compute_time_step (1 / 2) 1 [[1 / 2, 3], []] 9
      = (1 / 2) * ((([[1 / 2, 3], []] : List (List ℚ)).flatten).foldl min 1) / 1 :=
  ⟨by norm_num, compute_time_step_pos (1 / 2) 1 9 [[1 / 2, 3], []] (by norm_num)⟩

/-- C6: when the stability rate is not positive, `compute_time_step` returns
the requested `dt` unchanged for every `dt` and every collection of groups;
in particular the result does not depend on any group's smoothing-length
field. -/
theorem compute_time_step_nonpos (cfl dt_cfl dt : ℚ)
    (groups groups' : List (List ℚ)) (h : dt_cfl ≤ 0) :
    compute_time_step cfl dt_cfl groups dt = dt ∧
    compute_time_step cfl dt_cfl groups dt = compute_time_step cfl dt_cfl groups' dt := by
  rw [compute_time_step, if_pos h, compute_time_step, if_pos h]
  exact ⟨rfl, rfl⟩

/-- C6 witness: with a zero stability rate the requested step 7 is returned
unchanged, whatever the groups hold. -/
theorem compute_time_step_nonpos_witness :
    (0 : ℚ) ≤ 0 ∧
    (compute_time_step (1 / 2) 0 [[3]] 7 = 7 ∧
     compute_time_step (1 / 2) 0 [[3]] 7 = compute_time_step (1 / 2) 0 [[4], []] 7) :=
  ⟨le_refl 0, compute_time_step_nonpos (1 / 2) 0 7 [[3]] [[4], []] (le_refl 0)⟩

/-- The closed set of stepping-algorithm classes defined in the module. -/
inductive StepperKind where
  | eulerStep
  | wcsphStep
  | solidMechStep
  | transportVelocityStep
  | adamiVerletStep
deriving DecidableEq

/-- The three phase names every stepper exposes (the source's method strings;
the first phase is spelled `initialise` here). -/
inductive Method where
  | initialise
  | predictor
  | corrector
deriving DecidableEq

/-- The declared parameter list of each stepper phase, transcribed from the
method signatures in the source (what `inspect.getargspec(meth).args`
returns in `Integrator.get_args`). -/
def stepperArgs : StepperKind → Method → List String
  | .eulerStep, .initialise => ["self"]
  | .eulerStep, .predictor => ["self"]
  | .eulerStep, .corrector =>
      ["self", "d_idx", "d_u", "d_v", "d_w", "d_au", "d_av", "d_aw", "d_x", "d_y",
       "d_z", "d_rho", "d_arho", "dt"]
  | .wcsphStep, .initialise =>
      ["self", "d_idx", "d_x0", "d_y0", "d_z0", "d_x", "d_y", "d_z",
       "d_u0", "d_v0", "d_w0", "d_u", "d_v", "d_w", "d_rho0", "d_rho"]
  | .wcsphStep, .predictor =>
      ["self", "d_idx", "d_x0", "d_y0", "d_z0", "d_x", "d_y", "d_z",
       "d_u0", "d_v0", "d_w0", "d_u", "d_v", "d_w", "d_rho0", "d_rho", "d_au", "d_av",
       "d_aw", "d_ax", "d_ay", "d_az", "d_arho", "dt"]
  | .wcsphStep, .corrector =>
      ["self", "d_idx", "d_x0", "d_y0", "d_z0", "d_x", "d_y", "d_z",
       "d_u0", "d_v0", "d_w0", "d_u", "d_v", "d_w", "d_rho0", "d_rho", "d_au", "d_av",
       "d_aw", "d_ax", "d_ay", "d_az", "d_arho", "dt"]
  | .solidMechStep, .initialise =>
      ["self", "d_idx", "d_x0", "d_y0", "d_z0", "d_x", "d_y", "d_z",
       "d_u0", "d_v0", "d_w0", "d_u", "d_v", "d_w", "d_rho0", "d_rho",
       "d_s00", "d_s01", "d_s02", "d_s11", "d_s12", "d_s22",
       "d_s000", "d_s010", "d_s020", "d_s110", "d_s120", "d_s220",
       "d_e0", "d_e"]
  | .solidMechStep, .predictor =>
      ["self", "d_idx", "d_x0", "d_y0", "d_z0", "d_x", "d_y", "d_z",
       "d_u0", "d_v0", "d_w0", "d_u", "d_v", "d_w", "d_rho0", "d_rho", "d_au", "d_av",
       "d_aw", "d_ax", "d_ay", "d_az", "d_arho", "d_e", "d_e0", "d_ae",
       "d_s00", "d_s01", "d_s02", "d_s11", "d_s12", "d_s22",
       "d_s000", "d_s010", "d_s020", "d_s110", "d_s120", "d_s220",
       "d_as00", "d_as01", "d_as02", "d_as11", "d_as12", "d_as22",
       "dt"]
  | .solidMechStep, .corrector =>
      ["self", "d_idx", "d_x0", "d_y0", "d_z0", "d_x", "d_y", "d_z",
       "d_u0", "d_v0", "d_w0", "d_u", "d_v", "d_w", "d_rho0", "d_rho", "d_au", "d_av",
       "d_aw", "d_ax", "d_ay", "d_az", "d_arho", "d_e", "d_ae", "d_e0",
       "d_s00", "d_s01", "d_s02", "d_s11", "d_s12", "d_s22",
       "d_s000", "d_s010", "d_s020", "d_s110", "d_s120", "d_s220",
       "d_as00", "d_as01", "d_as02", "d_as11", "d_as12", "d_as22",
       "dt"]
  | .transportVelocityStep, .initialise => ["self"]
  | .transportVelocityStep, .predictor =>
      ["self", "d_idx", "d_u", "d_v", "d_au", "d_av", "d_uhat", "d_auhat", "d_vhat",
       "d_avhat", "d_x", "d_y", "dt"]
  | .transportVelocityStep, .corrector =>
      ["self", "d_idx", "d_u", "d_v", "d_au", "d_av", "d_vmag", "dt"]
  | .adamiVerletStep, .initialise => ["self"]
  | .adamiVerletStep, .predictor =>
      ["self", "d_idx", "d_u", "d_v", "d_au", "d_av", "d_x", "d_y", "dt"]
  | .adamiVerletStep, .corrector =>
      ["self", "d_idx", "d_u", "d_v", "d_au", "d_av", "d_x", "d_y", "d_rho", "d_arho",
       "d_vmag", "dt"]

/-- Modelled from the spec: `get_array_names` from `pysph.sph.equation` (not
part of this module) classifies a parameter list by naming convention into
source fields (prefixed to mark a neighbouring group) and destination fields
(prefixed `d_` to mark the owning group), excluding the per-particle index
`d_idx`; the result is a pair of sets, represented here as filtered lists. -/
def get_array_names (args : List String) : List String × List String :=
  (args.filter (fun n => n.startsWith ("s_")),
   args.filter (fun n => n.startsWith ("d_") && n != "d_idx"))

/-- Canonical ordered listing of a set of field names (the source's
`sorted(arrays)`; also used to render Python's unordered set iteration
deterministically). -/
def sortedFields (l : List String) : List String :=
  List.insertionSort (fun a b => a ≤ b) l

/-- `Integrator.get_array_declarations`: union the source and destination
field sets of every assigned stepper's phase, then emit one
`cdef double* name` line per field in sorted order. The stepper assignment is
a list of (destination-group name, stepper class) pairs in dict insertion
order. -/
def get_array_declarations (steppers : List (String × StepperKind)) (method : Method) :
    List String :=
  let arrays := (steppers.flatMap (fun p =>
    (get_array_names (stepperArgs p.2 method)).1
      ++ (get_array_names (stepperArgs p.2 method)).2)).dedup
  (sortedFields arrays).map (fun arr => "cdef double* " ++ arr)

/-- `Integrator.get_array_setup` for one destination group: one binding line
per field in the union of the phase's source and destination sets, binding
the prefixed name to the group's backing array (`n = dst.<n[2:]>.data`). -/
def get_array_setup (k : StepperKind) (method : Method) : List String :=
  let sd := get_array_names (stepperArgs k method)
  (sortedFields (sd.1 ++ sd.2).dedup).map
    (fun n => n ++ " = dst." ++ n.drop 2 ++ ".data")

/-- Lookup of the stepper assigned to a destination-group name (the source's
`self.steppers[dest]`). -/
def lookupStepper (dest : String) : List (String × StepperKind) → Option StepperKind
  | [] => none
  | p :: rest => if p.1 = dest then some p.2 else lookupStepper dest rest

/-- Sorting after dedup is invariant under permutation of the input list. -/
theorem sortedFields_dedup_perm_eq (l₁ l₂ : List String) (h : l₁.Perm l₂) :
    sortedFields l₁.dedup = sortedFields l₂.dedup := by
  unfold sortedFields
  exact List.eq_of_perm_of_sorted
    (((List.perm_insertionSort (fun a b => a ≤ b) l₁.dedup).trans h.dedup).trans
      (List.perm_insertionSort (fun a b => a ≤ b) l₂.dedup).symm)
    (List.sorted_insertionSort (fun a b => a ≤ b) l₁.dedup)
    (List.sorted_insertionSort (fun a b => a ≤ b) l₂.dedup)

/-- Looking a destination up in an assignment with no duplicate keys is
invariant under permutation of the assignment. -/
theorem lookupStepper_perm (dest : String) :
    ∀ {a₁ a₂ : List (String × StepperKind)}, a₁.Perm a₂ →
      (a₁.map Prod.fst).Nodup → lookupStepper dest a₁ = lookupStepper dest a₂ := by
  intro a₁ a₂ h
  induction h with
  | nil => intro _; rfl
  | cons p h ih =>
    intro hnd
    simp only [List.map_cons, List.nodup_cons] at hnd
    simp only [lookupStepper]
    rw [ih hnd.2]
  | swap p q l =>
    intro hnd
    simp only [List.map_cons, List.nodup_cons, List.mem_cons] at hnd
    have hne : q.1 ≠ p.1 := fun e => hnd.1 (Or.inl e)
    by_cases hq : q.1 = dest <;> by_cases hp : p.1 = dest <;>
      simp only [lookupStepper, hq, hp, if_pos, if_neg, if_true, if_false,
        reduceIte]
    exact absurd (hq.trans hp.symm) hne
  | trans h₁ h₂ ih₁ ih₂ =>
    intro hnd
    rw [ih₁ hnd, ih₂ ((h₁.map Prod.fst).nodup hnd)]

/-- C9: building the specialized stepper artifacts from two presentations of
the same stepper assignment (the same destination-to-stepper mapping, in any
dict insertion order, with no duplicate destination names) yields identical
field bindings: the same sorted declaration lines for every phase, and for
every destination group the same (source-field, destination-field) sets and
the same setup lines. -/
theorem specialization_deterministic (method : Method) (dest : String)
    (a₁ a₂ : List (String × StepperKind)) (hperm : a₁.Perm a₂)
    (hnd : (a₁.map Prod.fst).Nodup) :
    get_array_declarations a₁ method = get_array_declarations a₂ method ∧
    (lookupStepper dest a₁).map (fun k => get_array_names (stepperArgs k method))
      = (lookupStepper dest a₂).map (fun k => get_array_names (stepperArgs k method)) ∧
    (lookupStepper dest a₁).map (fun k => get_array_setup k method)
      = (lookupStepper dest a₂).map (fun k => get_array_setup k method) := by
  have hl := lookupStepper_perm dest hperm hnd
  refine ⟨?_, by rw [hl], by rw [hl]⟩
  simp only [get_array_declarations]
  rw [sortedFields_dedup_perm_eq _ _ (hperm.flatMap_right _)]

/-- A concrete two-group stepper assignment for the C9 witness. -/
def c9Assignment₁ : List (String × StepperKind) :=
  [("fluid", StepperKind.wcsphStep), ("solid", StepperKind.eulerStep)]

/-- The same assignment as `c9Assignment₁` in the opposite insertion order. -/
def c9Assignment₂ : List (String × StepperKind) :=
  [("solid", StepperKind.eulerStep), ("fluid", StepperKind.wcsphStep)]

/-- C9 witness: the two orderings of the concrete assignment are a
permutation with distinct destination names, and the built artifacts
coincide for the predictor phase and the group "fluid". -/
theorem specialization_deterministic_witness :
    c9Assignment₁.Perm c9Assignment₂ ∧
    (c9Assignment₁.map Prod.fst).Nodup ∧
    (get_array_declarations c9Assignment₁ Method.predictor
       = get_array_declarations c9Assignment₂ Method.predictor ∧
     (lookupStepper "fluid" c9Assignment₁).map
         (fun k => get_array_names (stepperArgs k Method.predictor))
       = (lookupStepper "fluid" c9Assignment₂).map
         (fun k => get_array_names (stepperArgs k Method.predictor)) ∧
     (lookupStepper "fluid" c9Assignment₁).map
         (fun k => get_array_setup k Method.predictor)
       = (lookupStepper "fluid" c9Assignment₂).map
         (fun k => get_array_setup k Method.predictor)) :=
  ⟨List.Perm.swap _ _ _, by decide,
   specialization_deterministic Method.predictor "fluid" c9Assignment₁ c9Assignment₂
     (List.Perm.swap _ _ _) (by decide)⟩
